import Mathlib

/-!
Verification development for the vulkan-gltf sample repository.

The repository is a set of Go Vulkan samples.  The native Vulkan API is an
external capability: every native call is modelled by an environment record
that supplies the result the driver would return, and the functions under
study are translated into Lean as pure functions from that environment to a
result together with a trace of the native calls they issue.  Go slices are
Lean lists; a Go index-out-of-range panic is the value none of an Option.
-/

namespace VkGltf

/-- An opaque Vulkan handle (instance, device, buffer, fence, ...). -/
abbrev Handle := Nat

/-- The clause of the Vulkan surface-format enum the swapchain code inspects:
the two 8-bit formats it accepts, and everything else. -/
inductive VkFormat
  | b8g8r8a8Unorm
  | r8g8b8a8Unorm
  | other (code : Nat)
  deriving DecidableEq, Repr

/-- VulkanSwapchainInfo of uniformBuffer/uniform/uniform.go: the slices the
draw loop and the teardown code index into.  Handles stand for the stored
objects; uniformBuffer holds the backing device-memory handle of each
per-image uniform buffer. -/
structure VulkanSwapchainInfo where
  Swapchains : List Handle
  SwapchainLen : List Nat
  uniformBuffer : List Handle
  DisplayFormat : VkFormat
  Framebuffers : List Handle
  DisplayViews : List Handle
  descriptorSet : List Handle
  deriving DecidableEq, Repr

/-- VulkanRenderInfo of uniform.go: command buffers and the single
fence/semaphore pair (stored as slices of length one). -/
structure VulkanRenderInfo where
  cmdBuffers : List Handle
  semaphores : List Handle
  fences : List Handle
  deriving DecidableEq, Repr

/-- VulkanBufferInfo of uniform.go: the buffer slice of a vertex or index
buffer aggregate. -/
structure VulkanBufferInfo where
  buffers : List Handle
  deriving DecidableEq, Repr

/-- DefaultSwapchain returns v.Swapchains[0]; indexing an empty slice is a Go
panic, modelled by none. -/
def VulkanSwapchainInfo.DefaultSwapchain (v : VulkanSwapchainInfo) : Option Handle :=
  v.Swapchains[0]?

/-- DefaultSwapchainLen returns v.SwapchainLen[0]; none models the panic on an
empty slice. -/
def VulkanSwapchainInfo.DefaultSwapchainLen (v : VulkanSwapchainInfo) : Option Nat :=
  v.SwapchainLen[0]?

/-- DefaultBuffer returns v.buffers[0]; none models the panic on an empty
slice. -/
def VulkanBufferInfo.DefaultBuffer (v : VulkanBufferInfo) : Option Handle :=
  v.buffers[0]?

/-- DefaultFence returns v.fences[0]; none models the panic on an empty
slice. -/
def VulkanRenderInfo.DefaultFence (v : VulkanRenderInfo) : Option Handle :=
  v.fences[0]?

/-- DefaultSemaphore returns v.semaphores[0]; none models the panic on an
empty slice. -/
def VulkanRenderInfo.DefaultSemaphore (v : VulkanRenderInfo) : Option Handle :=
  v.semaphores[0]?

/-- The native calls VulkanDrawFrame issues, in the order the code issues
them, each carrying the arguments the code passes. -/
inductive DrawEvent
  | acquireNextImage (swapchain semaphore : Handle)
  | mapMemory (memory : Handle)
  | memcopy (copied expected : Nat)
  | unmapMemory (memory : Handle)
  | resetFences (fences : List Handle)
  | queueSubmit (waitSemaphores : List Handle) (cmdBuffers : List Handle) (fence : Handle)
  | waitForFences (fences : List Handle) (timeoutNano : Nat)
  | queuePresent (swapchains : List Handle) (imageIndex : Nat)
  | logWarn (source : String)
  deriving DecidableEq, Repr

/-- What the driver answers to each fallible step of one frame: the acquired
image index (none when the acquire call errors), how many bytes Memcopy
reports, and whether QueueSubmit, WaitForFences and QueuePresent succeed. -/
structure DrawEnv where
  acquire : Option Nat
  memcopyBytes : Nat
  submitOk : Bool
  waitOk : Bool
  presentOk : Bool
  deriving DecidableEq, Repr

/-- The fence-wait timeout constant of VulkanDrawFrame (10 sec in ns). -/
def timeoutNano : Nat := 10 * 1000 * 1000 * 1000

/-- Byte length of MVP.Data, a 4x4 float32 matrix. -/
def mvpDataLen : Nat := 16 * 4

/-- The uniform-upload step of VulkanDrawFrame: map the memory of the
acquired image, Memcopy the MVP bytes (logging a warning when the reported
count falls short), unmap. -/
def uploadTrace (memory : Handle) (copied : Nat) : List DrawEvent :=
  [.mapMemory memory, .memcopy copied mvpDataLen] ++
  (if copied = mvpDataLen then [] else [.logWarn "failed to copy data"]) ++
  [.unmapMemory memory]

/-- VulkanDrawFrame of uniform.go.  Returns the Go boolean result and the
trace of native calls issued; none models a Go panic (an out-of-range slice
index in one of the Default accessors, the uniform-buffer lookup, or the
cmdBuffers reslice).  The submit event records the effective wait-semaphore
list: the code sets WaitSemaphoreCount to 1 over the semaphores slice, hence
its first element only, and passes the command buffers from nextIdx on. -/
def VulkanDrawFrame (s : VulkanSwapchainInfo) (r : VulkanRenderInfo) (env : DrawEnv) :
    Option (Bool × List DrawEvent) :=
  match s.DefaultSwapchain with
  | none => none
  | some swapchain =>
    match r.DefaultSemaphore with
    | none => none
    | some semaphore =>
      match env.acquire with
      | none =>
        some (false, [.acquireNextImage swapchain semaphore,
                      .logWarn "vk.AcquireNextImage failed"])
      | some nextIdx =>
        match s.uniformBuffer[nextIdx]? with
        | none => none
        | some memory =>
          if nextIdx ≤ r.cmdBuffers.length then
            match r.DefaultFence with
            | none => none
            | some fence =>
              let submitted : List DrawEvent :=
                .acquireNextImage swapchain semaphore ::
                uploadTrace memory env.memcopyBytes ++
                [.resetFences r.fences,
                 .queueSubmit (r.semaphores.take 1) (r.cmdBuffers.drop nextIdx) fence]
              if env.submitOk then
                let waited := submitted ++ [DrawEvent.waitForFences r.fences timeoutNano]
                if env.waitOk then
                  let presented := waited ++ [DrawEvent.queuePresent s.Swapchains nextIdx]
                  if env.presentOk then some (true, presented)
                  else some (false, presented ++ [.logWarn "vk.QueuePresent failed"])
                else some (false, waited ++ [.logWarn "vk.WaitForFences failed"])
              else some (false, submitted ++ [.logWarn "vk.QueueSubmit failed"])
          else none

/-- One event of a trace happens strictly before another: some occurrence of
the first is separated from some occurrence of the second by the split. -/
def precedes (x y : DrawEvent) (t : List DrawEvent) : Prop :=
  ∃ t1 t2 t3, t = t1 ++ x :: t2 ++ y :: t3

/-- The format test of the swapchain-creation loop: the code accepts
B8g8r8a8Unorm or R8g8b8a8Unorm. -/
def isPreferredFormat (f : VkFormat) : Bool :=
  f == .b8g8r8a8Unorm || f == .r8g8b8a8Unorm

/-- The format-selection loop of CreateSwapchain: scan the adapter-reported
formats in list order and keep the first one the test accepts. -/
def chooseFormat (formats : List VkFormat) : Option VkFormat :=
  formats.find? isPreferredFormat

/-- Modelled from the spec: a reading of the selection as a fixed preference
order over the two formats, trying B8g8r8a8Unorm first and then
R8g8b8a8Unorm, whichever the adapter supports.  Stated only to be compared
with chooseFormat, which is translated from the code. -/
def chooseFormatPreferenceOrder (formats : List VkFormat) : Option VkFormat :=
  if formats.contains .b8g8r8a8Unorm then some .b8g8r8a8Unorm
  else if formats.contains .r8g8b8a8Unorm then some .r8g8b8a8Unorm
  else none

/-- A Go creation loop, for i := 0; i < n; i++: one native call per index,
collecting the created handles; none as soon as one call fails. -/
def createLoop (f : Nat → Option Handle) : Nat → Option (List Handle)
  | 0 => some []
  | n + 1 =>
    match createLoop f n, f n with
    | some hs, some h => some (hs ++ [h])
    | _, _ => none

/-- The driver answers the swapchain-setup calls consume: success flags for
the one-shot calls, the surface-format list, the swapchain image count
GetSwapchainImages reports (none when the call errors), and per-index handles
for the objects created in loops (none when that creation call errors). -/
structure SwapchainEnv where
  descriptorSetLayoutOk : Bool
  surfaceCapabilitiesOk : Bool
  surfaceFormats : List VkFormat
  createSwapchainOk : Bool
  swapchainHandle : Handle
  swapchainImageCount : Option Nat
  createUniformBuffer : Nat → Option Handle
  createImageView : Nat → Option Handle
  createFramebuffer : Nat → Option Handle
  allocateDescriptorSet : Nat → Option Handle

/-- CreateSwapchain of renderer/renderer.go: descriptor-set layout, surface
capabilities, format selection, swapchain creation, image-count query, then
one uniform buffer per image.  A step error is returned; a failed
per-image CreateUniformBuffers is passed to util.OrPanic, so it is a panic
(none).  The struct fields the code does not set stay at their Go zero
value, the empty slice. -/
def CreateSwapchain (env : SwapchainEnv) : Option (Except String VulkanSwapchainInfo) :=
  if !env.descriptorSetLayoutOk then
    some (.error "vk.CreateDescriptorSetLayout failed")
  else if !env.surfaceCapabilitiesOk then
    some (.error "vk.GetPhysicalDeviceSurfaceCapabilities failed")
  else
    match chooseFormat env.surfaceFormats with
    | none => some (.error "vk.GetPhysicalDeviceSurfaceFormats not found suitable format")
    | some fmt =>
      if !env.createSwapchainOk then some (.error "vk.CreateSwapchain failed")
      else
        match env.swapchainImageCount with
        | none => some (.error "vk.GetSwapchainImages failed")
        | some n =>
          match createLoop env.createUniformBuffer n with
          | none => none
          | some ubs =>
            some (.ok { Swapchains := [env.swapchainHandle], SwapchainLen := [n],
                        uniformBuffer := ubs, DisplayFormat := fmt,
                        Framebuffers := [], DisplayViews := [], descriptorSet := [] })

/-- CreateFramebuffers of renderer/renderer.go: query the image count of the
swapchain again, build one image view per reported image, then one
framebuffer per DefaultSwapchainLen.  The driver is deterministic, so the
repeated GetSwapchainImages query reads the same environment field. -/
def VulkanSwapchainInfo.CreateFramebuffers (s : VulkanSwapchainInfo) (env : SwapchainEnv) :
    Option (Except String VulkanSwapchainInfo) :=
  match s.DefaultSwapchain with
  | none => none
  | some _ =>
    match env.swapchainImageCount with
    | none => some (.error "vk.GetSwapchainImages failed")
    | some count =>
      match createLoop env.createImageView count with
      | none => some (.error "vk.CreateImageView failed")
      | some views =>
        match s.DefaultSwapchainLen with
        | none => none
        | some len =>
          match createLoop env.createFramebuffer len with
          | none => some (.error "vk.CreateFramebuffer failed")
          | some fbs =>
            some (.ok { s with DisplayViews := views, Framebuffers := fbs })

/-- CreateDescriptorSet of renderer/renderer.go: allocate one descriptor set
per entry of SwapchainLen[0] (a panic, none, when that slice is empty) and
write each one. -/
def VulkanSwapchainInfo.CreateDescriptorSet (s : VulkanSwapchainInfo) (env : SwapchainEnv) :
    Option (Except String VulkanSwapchainInfo) :=
  match s.SwapchainLen[0]? with
  | none => none
  | some len =>
    match createLoop env.allocateDescriptorSet len with
    | none => some (.error "vk.AllocateDescriptorSets failed")
    | some sets => some (.ok { s with descriptorSet := sets })

/-- The destruction calls the teardown path issues, in issue order. -/
inductive DestroyEvent
  | freeCommandBuffers (count : Nat)
  | destroyCommandPool
  | destroyRenderPass
  | destroyFramebuffer (i : Nat)
  | destroyImageView (i : Nat)
  | destroySwapchain (i : Nat)
  | destroyPipeline
  | destroyPipelineCache
  | destroyPipelineLayout
  | destroyBuffer (handle : Handle)
  | destroyUniformBuffer (i : Nat)
  | freeUniformMemory (i : Nat)
  | freeDescriptorSet (i : Nat)
  | destroyDescriptorPool
  | destroyDescriptorSetLayout
  | destroyDevice
  | destroyDebugReportCallback
  | destroySurface
  | destroyInstance
  deriving DecidableEq, Repr

/-- The part of VulkanDeviceInfo the teardown path reads: whether a debug
report callback was installed (none models vk.NullDebugReportCallback). -/
structure VulkanDeviceInfo where
  dbg : Option Handle
  deriving DecidableEq, Repr

/-- Destroy of uniform.go VulkanSwapchainInfo: for each index below
DefaultSwapchainLen destroy the framebuffer and the image view, then destroy
every swapchain.  Indexing Framebuffers or DisplayViews beyond their length
is a Go panic (none).  The uniform buffers, their memory and the descriptor
objects are not touched (the code carries a TODO there). -/
def VulkanSwapchainInfo.DestroyTrace (s : VulkanSwapchainInfo) : Option (List DestroyEvent) :=
  match s.DefaultSwapchainLen with
  | none => none
  | some n =>
    if n ≤ s.Framebuffers.length ∧ n ≤ s.DisplayViews.length then
      some (((List.range n).flatMap fun i => [.destroyFramebuffer i, .destroyImageView i]) ++
        (List.range s.Swapchains.length).map .destroySwapchain)
    else none

/-- Destroy of uniform.go VulkanGfxPipelineInfo: pipeline, cache, layout. -/
def gfxDestroyTrace : List DestroyEvent :=
  [.destroyPipeline, .destroyPipelineCache, .destroyPipelineLayout]

/-- Destroy of uniform.go VulkanBufferInfo: destroy each buffer of the
slice; the backing memory is not freed. -/
def VulkanBufferInfo.DestroyTrace (b : VulkanBufferInfo) : List DestroyEvent :=
  b.buffers.map .destroyBuffer

/-- DestroyInOrder of uniform.go: free the command buffers, destroy the
command pool and the render pass, run the swapchain Destroy, the pipeline
Destroy, the vertex and index buffer Destroy, destroy the device, the debug
callback when installed, and the instance. -/
def DestroyInOrder (v : VulkanDeviceInfo) (s : VulkanSwapchainInfo)
    (r : VulkanRenderInfo) (vb ib : VulkanBufferInfo) : Option (List DestroyEvent) :=
  match s.DestroyTrace with
  | none => none
  | some sTrace =>
    some ([.freeCommandBuffers r.cmdBuffers.length, .destroyCommandPool, .destroyRenderPass] ++
      sTrace ++ gfxDestroyTrace ++
      vb.DestroyTrace ++ ib.DestroyTrace ++
      [.destroyDevice] ++
      (match v.dbg with
       | some _ => [DestroyEvent.destroyDebugReportCallback]
       | none => []) ++
      [.destroyInstance])

/-- Which native call of the bootstrap failed, as the typed errors of
NewVulkanDevice report it. -/
inductive BootstrapError
  | createInstanceFailed
  | enumeratePhysicalDevicesFailed
  | noGPUsFound
  | createDeviceFailed
  deriving DecidableEq, Repr

/-- The objects NewVulkanDevice creates, in creation order. -/
inductive BootObject
  | vkInstance
  | vkSurface
  | vkDevice
  deriving DecidableEq, Repr

/-- The driver answers the bootstrap consumes: the success of CreateInstance,
of the EnumeratePhysicalDevices calls, the GPU count they report, and the
success of CreateDevice. -/
structure BootstrapEnv where
  createInstanceOk : Bool
  enumerateOk : Bool
  gpuCount : Nat
  createDeviceOk : Bool
  deriving DecidableEq, Repr

/-- What a run of NewVulkanDevice leaves behind: its returned result, the
objects it created, and the objects it destroyed before returning, each in
call order. -/
structure BootstrapOutcome where
  result : Except BootstrapError Unit
  created : List BootObject
  destroyed : List BootObject
  deriving Repr

/-- getPhysicalDevices of renderer/renderer.go: an enumeration error or a
zero count is a typed error, otherwise the GPU list length. -/
def getPhysicalDevices (env : BootstrapEnv) : Except BootstrapError Nat :=
  if !env.enumerateOk then .error .enumeratePhysicalDevicesFailed
  else if env.gpuCount = 0 then .error .noGPUsFound
  else .ok env.gpuCount

/-- NewVulkanDevice of renderer/renderer.go.  The surface callback cannot
report failure: the err the surface branch checks is still nil there, so that
branch is dead and the surface always comes into existence after the
instance.  enableDebug is the constant false, so the debug-callback phase is
skipped.  Every failure destroys the already-created objects in reverse
creation order before returning. -/
def NewVulkanDevice (env : BootstrapEnv) : BootstrapOutcome :=
  if !env.createInstanceOk then
    { result := .error .createInstanceFailed, created := [], destroyed := [] }
  else
    match getPhysicalDevices env with
    | .error e =>
      { result := .error e, created := [.vkInstance, .vkSurface],
        destroyed := [.vkSurface, .vkInstance] }
    | .ok _ =>
      if !env.createDeviceOk then
        { result := .error .createDeviceFailed, created := [.vkInstance, .vkSurface],
          destroyed := [.vkSurface, .vkInstance] }
      else
        { result := .ok (), created := [.vkInstance, .vkSurface, .vkDevice],
          destroyed := [] }

/-- The native calls the buffer-creation four-step protocol issues. -/
inductive BufferEvent
  | createBuffer (size : Nat)
  | allocateMemory
  | mapMemory (size : Nat)
  | memcopy (copied expected : Nat)
  | logWarn (source : String)
  | unmapMemory
  | bindBufferMemory
  deriving DecidableEq, Repr

/-- True exactly on the warning-log events of a buffer trace. -/
def BufferEvent.isWarn : BufferEvent → Bool
  | .logWarn _ => true
  | _ => false

/-- The driver answers buffer creation consumes: success of CreateBuffer,
AllocateMemory and BindBufferMemory, and the byte count Memcopy reports. -/
structure BufferEnv where
  createBufferOk : Bool
  allocateMemoryOk : Bool
  memcopyBytes : Nat
  bindOk : Bool
  deriving DecidableEq, Repr

/-- CreateUniformBuffers of renderer/renderer.go: create the buffer sized to
the data, allocate host-visible memory, map, Memcopy (a short copy only logs
a warning), unmap, bind, and return the buffer with a nil error. -/
def CreateUniformBuffers (uniformData : List Nat) (env : BufferEnv) :
    Except String Unit × List BufferEvent :=
  let len := uniformData.length
  if !env.createBufferOk then
    (.error "vk.CreateBuffer failed", [.createBuffer len])
  else if !env.allocateMemoryOk then
    (.error "vk.AllocateMemory failed", [.createBuffer len, .allocateMemory])
  else
    let uploaded : List BufferEvent :=
      [.createBuffer len, .allocateMemory, .mapMemory len,
       .memcopy env.memcopyBytes len] ++
      (if env.memcopyBytes = len then [] else
        [.logWarn "failed to copy uniform buffer data"]) ++
      [.unmapMemory]
    if !env.bindOk then
      (.error "vk.BindBufferMemory failed", uploaded ++ [.bindBufferMemory])
    else (.ok (), uploaded ++ [.bindBufferMemory])

/-- CreateVertexBuffers of renderer/renderer.go: the same four-step
protocol, sized by the size argument the caller passes alongside the data;
Memcopy copies the data and its count is compared against size. -/
def CreateVertexBuffers (size : Nat) (env : BufferEnv) :
    Except String Unit × List BufferEvent :=
  if !env.createBufferOk then
    (.error "vk.CreateBuffer failed", [.createBuffer size])
  else if !env.allocateMemoryOk then
    (.error "vk.AllocateMemory failed", [.createBuffer size, .allocateMemory])
  else
    let uploaded : List BufferEvent :=
      [.createBuffer size, .allocateMemory, .mapMemory size,
       .memcopy env.memcopyBytes size] ++
      (if env.memcopyBytes = size then [] else
        [.logWarn "failed to copy vertex buffer data"]) ++
      [.unmapMemory]
    if !env.bindOk then
      (.error "vk.BindBufferMemory failed", uploaded ++ [.bindBufferMemory])
    else (.ok (), uploaded ++ [.bindBufferMemory])

/-- CreateIndexBuffers of uniform.go: the same four-step protocol over the
global index data, whose byte size drives the buffer size and the Memcopy
comparison. -/
def CreateIndexBuffers (size : Nat) (env : BufferEnv) :
    Except String Unit × List BufferEvent :=
  if !env.createBufferOk then
    (.error "vk.CreateBuffer failed", [.createBuffer size])
  else if !env.allocateMemoryOk then
    (.error "vk.AllocateMemory failed", [.createBuffer size, .allocateMemory])
  else
    let uploaded : List BufferEvent :=
      [.createBuffer size, .allocateMemory, .mapMemory size,
       .memcopy env.memcopyBytes size] ++
      (if env.memcopyBytes = size then [] else
        [.logWarn "failed to copy index buffer data"]) ++
      [.unmapMemory]
    if !env.bindOk then
      (.error "vk.BindBufferMemory failed", uploaded ++ [.bindBufferMemory])
    else (.ok (), uploaded ++ [.bindBufferMemory])

/-- DegreesToRadians of the linmath dependency, over the reals. -/
noncomputable def DegreesToRadians (deg : ℝ) : ℝ := deg * Real.pi / 180

/-- Perspective of the linmath dependency (the mat4x4_perspective of
linmath.h), over the reals: entry (1,1) is the cotangent of half the vertical
field of view. -/
noncomputable def Perspective (yFov aspect near far : ℝ) : Fin 4 → Fin 4 → ℝ :=
  fun i j =>
    let a := 1 / Real.tan (yFov / 2)
    if i = 0 ∧ j = 0 then a / aspect
    else if i = 1 ∧ j = 1 then a
    else if i = 2 ∧ j = 2 then -((far + near) / (far - near))
    else if i = 2 ∧ j = 3 then -1
    else if i = 3 ∧ j = 2 then -((2 * far * near) / (far - near))
    else 0

/-- The projection matrix CreateRenderer of uniform.go stores: Perspective
with a 45-degree field of view, near 0.1 and far 100, followed by the entry
(1,1) multiplied by -1 (the GL-to-Vulkan Y flip).  The code hard-codes the
aspect argument 1.0; the aspect is kept as a parameter here because entry
(1,1) does not depend on it. -/
noncomputable def CreateRendererProjection (aspect : ℝ) : Fin 4 → Fin 4 → ℝ :=
  let p := Perspective (DegreesToRadians 45) aspect (1 / 10) 100
  fun i j => if i = 1 ∧ j = 1 then p 1 1 * (-1) else p i j

/-- repackUint32 of uniform.go: allocate len(data)/4 words and fill them from
the bytes in little-endian order; the trailing len(data) mod 4 bytes feed no
word. -/
def repackUint32 : List Nat → List Nat
  | b0 :: b1 :: b2 :: b3 :: rest =>
    (b0 + 256 * (b1 + 256 * (b2 + 256 * b3))) :: repackUint32 rest
  | _ => []

/-- The ShaderModuleCreateInfo fields LoadShader of uniform.go fills:
CodeSize is the full byte length of the asset, PCode its repacking into
32-bit words. -/
structure ShaderModuleCreateInfo where
  CodeSize : Nat
  PCode : List Nat
  deriving DecidableEq, Repr

/-- LoadShader of uniform.go: look the asset up by name, build the
create-info from its bytes, and create the module.  The asset lookup and the
CreateShaderModule call answer through the environment; the module itself is
opaque, so a successful run returns the create-info that was passed. -/
def LoadShader (asset : Option (List Nat)) (createShaderModuleOk : Bool) :
    Except String ShaderModuleCreateInfo :=
  match asset with
  | none => .error "asset not found"
  | some data =>
    let info : ShaderModuleCreateInfo :=
      { CodeSize := data.length, PCode := repackUint32 data }
    if createShaderModuleOk then .ok info
    else .error "vk.CreateShaderModule failed"

/-- The readiness check of one frame: the slices VulkanDrawFrame indexes are
non-empty and, when the acquire call answers, its index is within the
per-image collections.  This is what a completed VulkanInit establishes. -/
def drawReady (s : VulkanSwapchainInfo) (r : VulkanRenderInfo) (env : DrawEnv) : Bool :=
  !s.Swapchains.isEmpty && !r.semaphores.isEmpty && !r.fences.isEmpty &&
  (match env.acquire with
   | none => true
   | some i => decide (i < s.uniformBuffer.length) && decide (i ≤ r.cmdBuffers.length))

/-- The Go zero value of VulkanSwapchainInfo: every slice nil, before
CreateSwapchain has run. -/
def preInitSwapchainInfo : VulkanSwapchainInfo :=
  { Swapchains := [], SwapchainLen := [], uniformBuffer := [],
    DisplayFormat := .other 0, Framebuffers := [], DisplayViews := [],
    descriptorSet := [] }

/-- The Go zero value of VulkanRenderInfo: every slice nil, before
CreateCommandBuffers and VulkanInit have run. -/
def preInitRenderInfo : VulkanRenderInfo :=
  { cmdBuffers := [], semaphores := [], fences := [] }

/-- The Go zero value of VulkanBufferInfo: nil buffer slice. -/
def preInitBufferInfo : VulkanBufferInfo :=
  { buffers := [] }

/-- A concrete device state with an installed debug callback, used to
evaluate the teardown order. -/
def sampleDeviceInfo : VulkanDeviceInfo := { dbg := some 3 }

/-- A concrete two-image swapchain state used to evaluate the teardown
order. -/
def sampleSwapchainInfo : VulkanSwapchainInfo :=
  { Swapchains := [12], SwapchainLen := [2], uniformBuffer := [21, 22],
    DisplayFormat := .r8g8b8a8Unorm, Framebuffers := [31, 32],
    DisplayViews := [41, 42], descriptorSet := [51, 52] }

/-- A concrete render state with two recorded command buffers. -/
def sampleRenderInfo : VulkanRenderInfo :=
  { cmdBuffers := [61, 62], semaphores := [71], fences := [81] }

/-- A concrete vertex-buffer aggregate. -/
def sampleVertexBufferInfo : VulkanBufferInfo := { buffers := [95] }

/-- A concrete index-buffer aggregate. -/
def sampleIndexBufferInfo : VulkanBufferInfo := { buffers := [96] }

/-- A concrete driver environment with two swapchain images, every call
succeeding, used to evaluate the setup sequence. -/
def sampleSwapchainEnv : SwapchainEnv :=
  { descriptorSetLayoutOk := true, surfaceCapabilitiesOk := true,
    surfaceFormats := [.other 7, .b8g8r8a8Unorm],
    createSwapchainOk := true, swapchainHandle := 12,
    swapchainImageCount := some 2,
    createUniformBuffer := fun i => some (100 + i),
    createImageView := fun i => some (200 + i),
    createFramebuffer := fun i => some (300 + i),
    allocateDescriptorSet := fun i => some (400 + i) }

/-- The state CreateSwapchain builds under sampleSwapchainEnv. -/
def sampleSwapchainState1 : VulkanSwapchainInfo :=
  { Swapchains := [12], SwapchainLen := [2], uniformBuffer := [100, 101],
    DisplayFormat := .b8g8r8a8Unorm, Framebuffers := [], DisplayViews := [],
    descriptorSet := [] }

/-- The state CreateFramebuffers builds from sampleSwapchainState1. -/
def sampleSwapchainState2 : VulkanSwapchainInfo :=
  { sampleSwapchainState1 with
    DisplayViews := [200, 201], Framebuffers := [300, 301] }

/-- The state CreateDescriptorSet builds from sampleSwapchainState2. -/
def sampleSwapchainState3 : VulkanSwapchainInfo :=
  { sampleSwapchainState2 with descriptorSet := [400, 401] }

/-- A concrete fully-succeeding frame environment acquiring image 1 with a
full 64-byte copy. -/
def sampleDrawEnv : DrawEnv :=
  { acquire := some 1, memcopyBytes := 64, submitOk := true, waitOk := true,
    presentOk := true }

/-- The trace VulkanDrawFrame issues on the sample state under
sampleDrawEnv. -/
def sampleDrawTrace : List DrawEvent :=
  [.acquireNextImage 12 71, .mapMemory 22, .memcopy 64 64, .unmapMemory 22,
   .resetFences [81], .queueSubmit [71] [62] 81,
   .waitForFences [81] timeoutNano, .queuePresent [12] 1]

/-- The event list DestroyInOrder issues on the sample states above. -/
def sampleDestroyOrder : List DestroyEvent :=
  [.freeCommandBuffers 2, .destroyCommandPool, .destroyRenderPass,
   .destroyFramebuffer 0, .destroyImageView 0,
   .destroyFramebuffer 1, .destroyImageView 1, .destroySwapchain 0,
   .destroyPipeline, .destroyPipelineCache, .destroyPipelineLayout,
   .destroyBuffer 95, .destroyBuffer 96, .destroyDevice,
   .destroyDebugReportCallback, .destroyInstance]

theorem createLoop_length (f : Nat → Option Handle) :
    ∀ (n : Nat) (hs : List Handle), createLoop f n = some hs → hs.length = n
  | 0, hs, h => by
    simp [createLoop] at h
    simp [← h]
  | n + 1, hs, h => by
    unfold createLoop at h
    cases hcl : createLoop f n with
    | none => rw [hcl] at h; simp at h
    | some tl =>
      cases hf : f n with
      | none => rw [hcl, hf] at h; simp at h
      | some x =>
        rw [hcl, hf] at h
        simp only [Option.some.injEq] at h
        subst h
        simp [createLoop_length f n tl hcl]

theorem length_repackUint32 : ∀ l : List Nat, (repackUint32 l).length = l.length / 4
  | [] => rfl
  | [_] => by simp [repackUint32]
  | [_, _] => by simp [repackUint32]
  | [_, _, _] => by simp [repackUint32]
  | _ :: _ :: _ :: _ :: rest => by
    simp only [repackUint32, List.length_cons, length_repackUint32 rest]
    omega

theorem repackUint32_take : ∀ l : List Nat,
    repackUint32 (l.take (4 * (l.length / 4))) = repackUint32 l
  | [] => rfl
  | [_] => by simp [repackUint32]
  | [_, _] => by simp [repackUint32]
  | [_, _, _] => by simp [repackUint32]
  | b0 :: b1 :: b2 :: b3 :: rest => by
    have hq : 4 * ((b0 :: b1 :: b2 :: b3 :: rest).length / 4) =
        4 * (rest.length / 4) + 4 := by
      simp only [List.length_cons]
      omega
    rw [hq]
    show repackUint32 (b0 :: b1 :: b2 :: b3 :: rest.take (4 * (rest.length / 4))) = _
    simp only [repackUint32, repackUint32_take rest]

theorem take_one_of_getElem_zero {α : Type} {l : List α} {a : α} (h : l[0]? = some a) :
    l.take 1 = [a] := by
  cases l with
  | nil => simp at h
  | cons x xs =>
    simp only [List.getElem?_cons_zero, Option.some.injEq] at h
    simp [h]

/-- C10: when the byte length of a shader asset is not a multiple of 4,
LoadShader declares CodeSize as the full byte length but passes only
floor(length / 4) repacked words, the trailing bytes feeding no word, so the
declared size and the repacked payload disagree. -/
theorem loadShader_truncates (data : List Nat) (ok : Bool) (info : ShaderModuleCreateInfo)
    (hlen : data.length % 4 ≠ 0)
    (h : LoadShader (some data) ok = .ok info) :
    info.PCode.length = data.length / 4 ∧
    info.CodeSize = data.length ∧
    4 * info.PCode.length < info.CodeSize ∧
    info.PCode = repackUint32 (data.take (4 * (data.length / 4))) := by
  unfold LoadShader at h
  cases ok with
  | false => simp at h
  | true =>
    simp only [if_true, Except.ok.injEq] at h
    subst h
    refine ⟨length_repackUint32 data, rfl, ?_, (repackUint32_take data).symm⟩
    simp only [length_repackUint32 data]
    omega

/-- C10 witness: the five-byte asset 01 02 03 04 05 yields one word and a
declared size of five bytes. -/
theorem loadShader_truncates_witness :
    ([67305985] : List Nat).length = 5 / 4 ∧
    (5 : Nat) = ([1, 2, 3, 4, 5] : List Nat).length ∧
    4 * ([67305985] : List Nat).length < 5 ∧
    ([67305985] : List Nat) = repackUint32 ([1, 2, 3, 4, 5].take (4 * (5 / 4))) :=
  loadShader_truncates [1, 2, 3, 4, 5] true ⟨5, [67305985]⟩ (by decide) rfl

/-- C4 counterexample: on the adapter list that reports R8g8b8a8Unorm before
B8g8r8a8Unorm, the code keeps R8g8b8a8Unorm (list order), while a fixed
preference order over the two formats would keep B8g8r8a8Unorm. -/
theorem chooseFormat_not_preference_order :
    chooseFormat [VkFormat.r8g8b8a8Unorm, VkFormat.b8g8r8a8Unorm] =
      some VkFormat.r8g8b8a8Unorm ∧
    chooseFormatPreferenceOrder [VkFormat.r8g8b8a8Unorm, VkFormat.b8g8r8a8Unorm] =
      some VkFormat.b8g8r8a8Unorm ∧
    chooseFormat [VkFormat.r8g8b8a8Unorm, VkFormat.b8g8r8a8Unorm] ≠
      chooseFormatPreferenceOrder [VkFormat.r8g8b8a8Unorm, VkFormat.b8g8r8a8Unorm] := by
  refine ⟨rfl, rfl, ?_⟩
  decide

/-- C4 amended: the format-selection step keeps the first format in the
adapter-reported list order that is one of the two accepted 8-bit formats (no
preference between the two), and when neither is present CreateSwapchain
returns the explicit no-suitable-format error instead of creating the
swapchain. -/
theorem chooseFormat_first_listed_match (env : SwapchainEnv)
    (h1 : env.descriptorSetLayoutOk = true) (h2 : env.surfaceCapabilitiesOk = true) :
    (chooseFormat env.surfaceFormats = none ↔
      VkFormat.b8g8r8a8Unorm ∉ env.surfaceFormats ∧
      VkFormat.r8g8b8a8Unorm ∉ env.surfaceFormats) ∧
    (chooseFormat env.surfaceFormats = none →
      CreateSwapchain env =
        some (.error "vk.GetPhysicalDeviceSurfaceFormats not found suitable format")) ∧
    (∀ f, chooseFormat env.surfaceFormats = some f →
      isPreferredFormat f = true ∧
      ∃ l1 l2, env.surfaceFormats = l1 ++ f :: l2 ∧
        ∀ g ∈ l1, isPreferredFormat g = false) ∧
    (∀ s, CreateSwapchain env = some (.ok s) →
      chooseFormat env.surfaceFormats = some s.DisplayFormat) := by
  refine ⟨?_, ?_, ?_, ?_⟩
  · rw [chooseFormat, List.find?_eq_none]
    constructor
    · intro h
      refine ⟨fun hb => ?_, fun hr => ?_⟩
      · exact h _ hb (by simp [isPreferredFormat])
      · exact h _ hr (by simp [isPreferredFormat])
    · rintro ⟨hb, hr⟩ x hx hpx
      simp only [isPreferredFormat, Bool.or_eq_true, beq_iff_eq] at hpx
      rcases hpx with rfl | rfl
      · exact hb hx
      · exact hr hx
  · intro hnone
    unfold CreateSwapchain
    rw [h1, h2, hnone]
    rfl
  · intro f hf
    rw [chooseFormat, List.find?_eq_some] at hf
    obtain ⟨hpf, l1, l2, heq, hall⟩ := hf
    exact ⟨hpf, l1, l2, heq, fun g hg => by simpa using hall g hg⟩
  · intro s hs
    unfold CreateSwapchain at hs
    rw [h1, h2] at hs
    simp only [Bool.not_true, Bool.false_eq_true, if_false] at hs
    split at hs
    next => simp at hs
    next fmt hcf =>
      split at hs
      next => simp at hs
      next =>
        split at hs
        next => simp at hs
        next n hic =>
          split at hs
          next => simp at hs
          next ubs hcl =>
            simp only [Option.some.injEq, Except.ok.injEq] at hs
            rw [hcf, ← hs]

/-- C4 witness: a concrete adapter list where R8g8b8a8Unorm is reported
first, behind an unaccepted format. -/
theorem chooseFormat_first_listed_match_witness :
    (chooseFormat [VkFormat.other 7, VkFormat.r8g8b8a8Unorm] = none ↔
      VkFormat.b8g8r8a8Unorm ∉ [VkFormat.other 7, VkFormat.r8g8b8a8Unorm] ∧
      VkFormat.r8g8b8a8Unorm ∉ [VkFormat.other 7, VkFormat.r8g8b8a8Unorm]) ∧
    (chooseFormat [VkFormat.other 7, VkFormat.r8g8b8a8Unorm] = none →
      CreateSwapchain
        { descriptorSetLayoutOk := true, surfaceCapabilitiesOk := true,
          surfaceFormats := [VkFormat.other 7, VkFormat.r8g8b8a8Unorm],
          createSwapchainOk := true, swapchainHandle := 5,
          swapchainImageCount := some 2,
          createUniformBuffer := fun i => some (100 + i),
          createImageView := fun i => some (200 + i),
          createFramebuffer := fun i => some (300 + i),
          allocateDescriptorSet := fun i => some (400 + i) } =
        some (.error "vk.GetPhysicalDeviceSurfaceFormats not found suitable format")) ∧
    (∀ f, chooseFormat [VkFormat.other 7, VkFormat.r8g8b8a8Unorm] = some f →
      isPreferredFormat f = true ∧
      ∃ l1 l2, [VkFormat.other 7, VkFormat.r8g8b8a8Unorm] = l1 ++ f :: l2 ∧
        ∀ g ∈ l1, isPreferredFormat g = false) ∧
    (∀ s, CreateSwapchain
        { descriptorSetLayoutOk := true, surfaceCapabilitiesOk := true,
          surfaceFormats := [VkFormat.other 7, VkFormat.r8g8b8a8Unorm],
          createSwapchainOk := true, swapchainHandle := 5,
          swapchainImageCount := some 2,
          createUniformBuffer := fun i => some (100 + i),
          createImageView := fun i => some (200 + i),
          createFramebuffer := fun i => some (300 + i),
          allocateDescriptorSet := fun i => some (400 + i) } = some (.ok s) →
      chooseFormat [VkFormat.other 7, VkFormat.r8g8b8a8Unorm] = some s.DisplayFormat) :=
  chooseFormat_first_listed_match
    { descriptorSetLayoutOk := true, surfaceCapabilitiesOk := true,
      surfaceFormats := [VkFormat.other 7, VkFormat.r8g8b8a8Unorm],
      createSwapchainOk := true, swapchainHandle := 5,
      swapchainImageCount := some 2,
      createUniformBuffer := fun i => some (100 + i),
      createImageView := fun i => some (200 + i),
      createFramebuffer := fun i => some (300 + i),
      allocateDescriptorSet := fun i => some (400 + i) }
    rfl rfl

/-- C8: the projection matrix CreateRenderer stores has a negative (1,1)
entry for every positive-cotangent configuration, because the perspective
entry is multiplied by -1 after the computation; in particular for any aspect
ratio, the code passing 1.0 for its 640x480 window. -/
theorem createRendererProjection_one_one_neg (aspect : ℝ) :
    CreateRendererProjection aspect 1 1 < 0 := by
  have hval : CreateRendererProjection aspect 1 1 =
      (1 / Real.tan (DegreesToRadians 45 / 2)) * (-1) := by
    simp [CreateRendererProjection, Perspective]
  have harg : DegreesToRadians 45 / 2 = Real.pi / 8 := by
    unfold DegreesToRadians
    ring
  have htan : 0 < Real.tan (Real.pi / 8) := by
    apply Real.tan_pos_of_pos_of_lt_pi_div_two
    · positivity
    · linarith [Real.pi_pos]
  rw [hval, harg]
  have hpos : 0 < 1 / Real.tan (Real.pi / 8) := by positivity
  linarith

/-- C9: each Default accessor indexes element 0 of its backing slice, so on
the zero-value (pre-setup) aggregates every one of them panics, and a
VulkanDrawFrame call issued before CreateSwapchain and VulkanInit have
populated the slices panics as well instead of returning false. -/
theorem default_accessors_panic_when_empty :
    preInitSwapchainInfo.DefaultSwapchain = none ∧
    preInitSwapchainInfo.DefaultSwapchainLen = none ∧
    preInitRenderInfo.DefaultFence = none ∧
    preInitRenderInfo.DefaultSemaphore = none ∧
    preInitBufferInfo.DefaultBuffer = none ∧
    ∀ env : DrawEnv, VulkanDrawFrame preInitSwapchainInfo preInitRenderInfo env = none :=
  ⟨rfl, rfl, rfl, rfl, rfl, fun _ => rfl⟩

/-- C5 counterexample: a concrete initialized state (one swapchain image,
no debug callback) on which DestroyInOrder issues exactly the listed calls:
no event destroys the surface, the per-image uniform buffer or its memory,
the descriptor set, the descriptor pool or the descriptor set layout, all of
which the claim requires. -/
theorem destroyInOrder_missing_destructions :
    DestroyInOrder { dbg := none }
      { Swapchains := [11], SwapchainLen := [1], uniformBuffer := [21],
        DisplayFormat := VkFormat.b8g8r8a8Unorm, Framebuffers := [31],
        DisplayViews := [41], descriptorSet := [51] }
      { cmdBuffers := [61], semaphores := [71], fences := [81] }
      { buffers := [91] } { buffers := [92] } =
      some [.freeCommandBuffers 1, .destroyCommandPool, .destroyRenderPass,
            .destroyFramebuffer 0, .destroyImageView 0, .destroySwapchain 0,
            .destroyPipeline, .destroyPipelineCache, .destroyPipelineLayout,
            .destroyBuffer 91, .destroyBuffer 92, .destroyDevice, .destroyInstance] ∧
    ∀ e ∈ [DestroyEvent.freeCommandBuffers 1, .destroyCommandPool, .destroyRenderPass,
           .destroyFramebuffer 0, .destroyImageView 0, .destroySwapchain 0,
           .destroyPipeline, .destroyPipelineCache, .destroyPipelineLayout,
           .destroyBuffer 91, .destroyBuffer 92, .destroyDevice, .destroyInstance],
      e ≠ DestroyEvent.destroySurface ∧
      e ≠ DestroyEvent.destroyUniformBuffer 0 ∧
      e ≠ DestroyEvent.freeUniformMemory 0 ∧
      e ≠ DestroyEvent.freeDescriptorSet 0 ∧
      e ≠ DestroyEvent.destroyDescriptorPool ∧
      e ≠ DestroyEvent.destroyDescriptorSetLayout := by decide

/-- C5 amended: DestroyInOrder frees the command buffers, then destroys the
command pool, the render pass, the framebuffer and image view of each
swapchain image in index order, the swapchains, the pipeline objects
(pipeline, cache, layout), the vertex then index buffers (their backing
memory is not freed), the logical device, the debug callback when installed,
and finally the instance.  The surface is never destroyed, and neither are
the per-image uniform buffers, their memory, the descriptor sets, the
descriptor pool or the descriptor set layout. -/
theorem destroyInOrder_actual_order (v : VulkanDeviceInfo) (s : VulkanSwapchainInfo)
    (r : VulkanRenderInfo) (vb ib : VulkanBufferInfo) (n : Nat) (t : List DestroyEvent)
    (hn : s.DefaultSwapchainLen = some n)
    (hfb : n ≤ s.Framebuffers.length) (hiv : n ≤ s.DisplayViews.length)
    (h : DestroyInOrder v s r vb ib = some t) :
    t = [DestroyEvent.freeCommandBuffers r.cmdBuffers.length, .destroyCommandPool,
         .destroyRenderPass] ++
        ((List.range n).flatMap fun i =>
          [DestroyEvent.destroyFramebuffer i, .destroyImageView i]) ++
        (List.range s.Swapchains.length).map DestroyEvent.destroySwapchain ++
        [DestroyEvent.destroyPipeline, .destroyPipelineCache, .destroyPipelineLayout] ++
        vb.buffers.map DestroyEvent.destroyBuffer ++
        ib.buffers.map DestroyEvent.destroyBuffer ++
        [DestroyEvent.destroyDevice] ++
        (if v.dbg.isSome then [DestroyEvent.destroyDebugReportCallback] else []) ++
        [DestroyEvent.destroyInstance] ∧
    DestroyEvent.destroySurface ∉ t ∧
    (∀ i, DestroyEvent.destroyUniformBuffer i ∉ t) ∧
    (∀ i, DestroyEvent.freeUniformMemory i ∉ t) ∧
    (∀ i, DestroyEvent.freeDescriptorSet i ∉ t) ∧
    DestroyEvent.destroyDescriptorPool ∉ t ∧
    DestroyEvent.destroyDescriptorSetLayout ∉ t := by
  have hdt : s.DestroyTrace =
      some (((List.range n).flatMap fun i =>
          [DestroyEvent.destroyFramebuffer i, .destroyImageView i]) ++
        (List.range s.Swapchains.length).map DestroyEvent.destroySwapchain) := by
    unfold VulkanSwapchainInfo.DestroyTrace
    rw [hn]
    simp [hfb, hiv]
  unfold DestroyInOrder at h
  rw [hdt] at h
  simp only [Option.some.injEq] at h
  subst h
  cases hdbg : v.dbg with
  | none =>
    refine ⟨by simp [gfxDestroyTrace, VulkanBufferInfo.DestroyTrace], ?_, ?_, ?_, ?_, ?_, ?_⟩ <;>
      simp [gfxDestroyTrace, VulkanBufferInfo.DestroyTrace,
        List.mem_append, List.mem_flatMap, List.mem_map]
  | some d =>
    refine ⟨by simp [gfxDestroyTrace, VulkanBufferInfo.DestroyTrace], ?_, ?_, ?_, ?_, ?_, ?_⟩ <;>
      simp [gfxDestroyTrace, VulkanBufferInfo.DestroyTrace,
        List.mem_append, List.mem_flatMap, List.mem_map]

/-- C5 amended witness: the teardown order evaluated on the concrete
two-image sample state with an installed debug callback. -/
theorem destroyInOrder_actual_order_witness :
    sampleDestroyOrder =
      [DestroyEvent.freeCommandBuffers sampleRenderInfo.cmdBuffers.length,
       .destroyCommandPool, .destroyRenderPass] ++
      ((List.range 2).flatMap fun i =>
        [DestroyEvent.destroyFramebuffer i, .destroyImageView i]) ++
      (List.range sampleSwapchainInfo.Swapchains.length).map
        DestroyEvent.destroySwapchain ++
      [DestroyEvent.destroyPipeline, .destroyPipelineCache, .destroyPipelineLayout] ++
      sampleVertexBufferInfo.buffers.map DestroyEvent.destroyBuffer ++
      sampleIndexBufferInfo.buffers.map DestroyEvent.destroyBuffer ++
      [DestroyEvent.destroyDevice] ++
      (if sampleDeviceInfo.dbg.isSome then
        [DestroyEvent.destroyDebugReportCallback] else []) ++
      [DestroyEvent.destroyInstance] ∧
    DestroyEvent.destroySurface ∉ sampleDestroyOrder ∧
    (∀ i, DestroyEvent.destroyUniformBuffer i ∉ sampleDestroyOrder) ∧
    (∀ i, DestroyEvent.freeUniformMemory i ∉ sampleDestroyOrder) ∧
    (∀ i, DestroyEvent.freeDescriptorSet i ∉ sampleDestroyOrder) ∧
    DestroyEvent.destroyDescriptorPool ∉ sampleDestroyOrder ∧
    DestroyEvent.destroyDescriptorSetLayout ∉ sampleDestroyOrder :=
  destroyInOrder_actual_order sampleDeviceInfo sampleSwapchainInfo sampleRenderInfo
    sampleVertexBufferInfo sampleIndexBufferInfo 2 sampleDestroyOrder
    (by decide) (by decide) (by decide) (by decide)

/-- C6: whenever NewVulkanDevice fails, the typed error names the native call
that failed (instance creation, adapter enumeration including the zero-GPU
case, or logical device creation; the surface callback cannot fail), and
every object already created has been destroyed in reverse creation order
before the return, leaving nothing for the caller; on success nothing is
destroyed. -/
theorem newVulkanDevice_unwind (env : BootstrapEnv) :
    ((NewVulkanDevice env).result = .ok () →
      (NewVulkanDevice env).created = [.vkInstance, .vkSurface, .vkDevice] ∧
      (NewVulkanDevice env).destroyed = []) ∧
    (∀ e, (NewVulkanDevice env).result = .error e →
      (NewVulkanDevice env).destroyed = (NewVulkanDevice env).created.reverse) ∧
    (env.createInstanceOk = false →
      (NewVulkanDevice env).result = .error .createInstanceFailed ∧
      (NewVulkanDevice env).created = []) ∧
    (env.createInstanceOk = true → env.enumerateOk = false →
      (NewVulkanDevice env).result = .error .enumeratePhysicalDevicesFailed) ∧
    (env.createInstanceOk = true → env.enumerateOk = true → env.gpuCount = 0 →
      (NewVulkanDevice env).result = .error .noGPUsFound) ∧
    (env.createInstanceOk = true → env.enumerateOk = true → env.gpuCount ≠ 0 →
      env.createDeviceOk = false →
      (NewVulkanDevice env).result = .error .createDeviceFailed) := by
  obtain ⟨ci, en, gc, cd⟩ := env
  cases ci <;> cases en <;> cases cd <;> rcases gc with _ | m <;>
    simp [NewVulkanDevice, getPhysicalDevices]

/-- C7: in each of the three buffer-creation functions, when every native
call succeeds, a Memcopy that reports fewer bytes than expected only logs a
warning: the function still unmaps and binds and its returned error is nil,
the same result as in the full-copy run. -/
theorem buffer_short_copy_lenient (env : BufferEnv)
    (hc : env.createBufferOk = true) (ha : env.allocateMemoryOk = true)
    (hb : env.bindOk = true) :
    (∀ uniformData : List Nat,
      (CreateUniformBuffers uniformData env).fst = .ok () ∧
      (CreateUniformBuffers uniformData env).fst =
        (CreateUniformBuffers uniformData
          { env with memcopyBytes := uniformData.length }).fst ∧
      (env.memcopyBytes ≠ uniformData.length →
        ∃ m, BufferEvent.logWarn m ∈ (CreateUniformBuffers uniformData env).snd) ∧
      BufferEvent.unmapMemory ∈ (CreateUniformBuffers uniformData env).snd ∧
      BufferEvent.bindBufferMemory ∈ (CreateUniformBuffers uniformData env).snd) ∧
    (∀ size : Nat,
      (CreateVertexBuffers size env).fst = .ok () ∧
      (CreateVertexBuffers size env).fst =
        (CreateVertexBuffers size { env with memcopyBytes := size }).fst ∧
      (env.memcopyBytes ≠ size →
        ∃ m, BufferEvent.logWarn m ∈ (CreateVertexBuffers size env).snd) ∧
      BufferEvent.unmapMemory ∈ (CreateVertexBuffers size env).snd ∧
      BufferEvent.bindBufferMemory ∈ (CreateVertexBuffers size env).snd) ∧
    (∀ size : Nat,
      (CreateIndexBuffers size env).fst = .ok () ∧
      (CreateIndexBuffers size env).fst =
        (CreateIndexBuffers size { env with memcopyBytes := size }).fst ∧
      (env.memcopyBytes ≠ size →
        ∃ m, BufferEvent.logWarn m ∈ (CreateIndexBuffers size env).snd) ∧
      BufferEvent.unmapMemory ∈ (CreateIndexBuffers size env).snd ∧
      BufferEvent.bindBufferMemory ∈ (CreateIndexBuffers size env).snd) := by
  obtain ⟨cb, am, mc, bo⟩ := env
  simp only at hc ha hb
  subst hc ha hb
  refine ⟨fun uniformData => ?_, fun size => ?_, fun size => ?_⟩
  · by_cases hmc : mc = uniformData.length <;> simp [CreateUniformBuffers, hmc]
  · by_cases hmc : mc = size <;> simp [CreateVertexBuffers, hmc]
  · by_cases hmc : mc = size <;> simp [CreateIndexBuffers, hmc]

/-- C7 witness: a three-byte copy into a four-byte upload, all native calls
succeeding. -/
theorem buffer_short_copy_lenient_witness :
    (∀ uniformData : List Nat,
      (CreateUniformBuffers uniformData
        { createBufferOk := true, allocateMemoryOk := true,
          memcopyBytes := 3, bindOk := true }).fst = .ok () ∧
      (CreateUniformBuffers uniformData
        { createBufferOk := true, allocateMemoryOk := true,
          memcopyBytes := 3, bindOk := true }).fst =
        (CreateUniformBuffers uniformData
          { createBufferOk := true, allocateMemoryOk := true,
            memcopyBytes := uniformData.length, bindOk := true }).fst ∧
      ((3 : Nat) ≠ uniformData.length →
        ∃ m, BufferEvent.logWarn m ∈ (CreateUniformBuffers uniformData
          { createBufferOk := true, allocateMemoryOk := true,
            memcopyBytes := 3, bindOk := true }).snd) ∧
      BufferEvent.unmapMemory ∈ (CreateUniformBuffers uniformData
        { createBufferOk := true, allocateMemoryOk := true,
          memcopyBytes := 3, bindOk := true }).snd ∧
      BufferEvent.bindBufferMemory ∈ (CreateUniformBuffers uniformData
        { createBufferOk := true, allocateMemoryOk := true,
          memcopyBytes := 3, bindOk := true }).snd) ∧
    (∀ size : Nat,
      (CreateVertexBuffers size
        { createBufferOk := true, allocateMemoryOk := true,
          memcopyBytes := 3, bindOk := true }).fst = .ok () ∧
      (CreateVertexBuffers size
        { createBufferOk := true, allocateMemoryOk := true,
          memcopyBytes := 3, bindOk := true }).fst =
        (CreateVertexBuffers size
          { createBufferOk := true, allocateMemoryOk := true,
            memcopyBytes := size, bindOk := true }).fst ∧
      ((3 : Nat) ≠ size →
        ∃ m, BufferEvent.logWarn m ∈ (CreateVertexBuffers size
          { createBufferOk := true, allocateMemoryOk := true,
            memcopyBytes := 3, bindOk := true }).snd) ∧
      BufferEvent.unmapMemory ∈ (CreateVertexBuffers size
        { createBufferOk := true, allocateMemoryOk := true,
          memcopyBytes := 3, bindOk := true }).snd ∧
      BufferEvent.bindBufferMemory ∈ (CreateVertexBuffers size
        { createBufferOk := true, allocateMemoryOk := true,
          memcopyBytes := 3, bindOk := true }).snd) ∧
    (∀ size : Nat,
      (CreateIndexBuffers size
        { createBufferOk := true, allocateMemoryOk := true,
          memcopyBytes := 3, bindOk := true }).fst = .ok () ∧
      (CreateIndexBuffers size
        { createBufferOk := true, allocateMemoryOk := true,
          memcopyBytes := 3, bindOk := true }).fst =
        (CreateIndexBuffers size
          { createBufferOk := true, allocateMemoryOk := true,
            memcopyBytes := size, bindOk := true }).fst ∧
      ((3 : Nat) ≠ size →
        ∃ m, BufferEvent.logWarn m ∈ (CreateIndexBuffers size
          { createBufferOk := true, allocateMemoryOk := true,
            memcopyBytes := 3, bindOk := true }).snd) ∧
      BufferEvent.unmapMemory ∈ (CreateIndexBuffers size
        { createBufferOk := true, allocateMemoryOk := true,
          memcopyBytes := 3, bindOk := true }).snd ∧
      BufferEvent.bindBufferMemory ∈ (CreateIndexBuffers size
        { createBufferOk := true, allocateMemoryOk := true,
          memcopyBytes := 3, bindOk := true }).snd) :=
  buffer_short_copy_lenient
    { createBufferOk := true, allocateMemoryOk := true,
      memcopyBytes := 3, bindOk := true } rfl rfl rfl

/-- C3: after a successful CreateSwapchain, CreateFramebuffers and
CreateDescriptorSet with a swapchain image count of N, the per-image uniform
buffers, framebuffers, image views and descriptor sets all have exactly N
elements; these three calls are the only operations of the model that fill
the collections, so the equal-length invariant holds from then on. -/
theorem setup_collections_equal_length (env : SwapchainEnv) (n : Nat)
    (s1 s2 s3 : VulkanSwapchainInfo)
    (hn : env.swapchainImageCount = some n)
    (h1 : CreateSwapchain env = some (.ok s1))
    (h2 : s1.CreateFramebuffers env = some (.ok s2))
    (h3 : s2.CreateDescriptorSet env = some (.ok s3)) :
    s3.SwapchainLen = [n] ∧
    s3.uniformBuffer.length = n ∧
    s3.Framebuffers.length = n ∧
    s3.DisplayViews.length = n ∧
    s3.descriptorSet.length = n := by
  unfold CreateSwapchain at h1
  split at h1
  · simp at h1
  split at h1
  · simp at h1
  split at h1
  · simp at h1
  next fmt hcf =>
    split at h1
    · simp at h1
    split at h1
    · simp at h1
    next n' hic =>
      rw [hn] at hic
      injection hic with hic
      subst hic
      split at h1
      · simp at h1
      next ubs hcl =>
        simp only [Option.some.injEq, Except.ok.injEq] at h1
        subst h1
        unfold VulkanSwapchainInfo.CreateFramebuffers at h2
        simp only [VulkanSwapchainInfo.DefaultSwapchain,
          VulkanSwapchainInfo.DefaultSwapchainLen, List.getElem?_cons_zero, hn] at h2
        split at h2
        · simp at h2
        next views hclv =>
          split at h2
          · simp at h2
          next fbs hclf =>
            simp only [Option.some.injEq, Except.ok.injEq] at h2
            subst h2
            unfold VulkanSwapchainInfo.CreateDescriptorSet at h3
            simp only [List.getElem?_cons_zero] at h3
            split at h3
            · simp at h3
            next sets hcls =>
              simp only [Option.some.injEq, Except.ok.injEq] at h3
              subst h3
              exact ⟨rfl, createLoop_length _ _ _ hcl,
                createLoop_length _ _ _ hclf, createLoop_length _ _ _ hclv,
                createLoop_length _ _ _ hcls⟩

/-- C3 witness: the setup sequence evaluated under the concrete two-image
environment. -/
theorem setup_collections_equal_length_witness :
    sampleSwapchainState3.SwapchainLen = [2] ∧
    sampleSwapchainState3.uniformBuffer.length = 2 ∧
    sampleSwapchainState3.Framebuffers.length = 2 ∧
    sampleSwapchainState3.DisplayViews.length = 2 ∧
    sampleSwapchainState3.descriptorSet.length = 2 :=
  setup_collections_equal_length sampleSwapchainEnv 2
    sampleSwapchainState1 sampleSwapchainState2 sampleSwapchainState3
    rfl rfl rfl rfl

theorem mem_uploadTrace {x : DrawEvent} {memory copied : Nat} :
    x ∈ uploadTrace memory copied ↔
      x = .mapMemory memory ∨ x = .memcopy copied mvpDataLen ∨
      (copied ≠ mvpDataLen ∧ x = .logWarn "failed to copy data") ∨
      x = .unmapMemory memory := by
  by_cases hmc : copied = mvpDataLen <;> simp [uploadTrace, hmc]

/-- C2: under a ready state, VulkanDrawFrame does not panic: it returns true
exactly when acquire, submit, fence wait and present all succeed; a failing
step logs a warning, makes the frame return false and skips every remaining
step; and any fence wait it issues uses the timeout of exactly
10*1000*1000*1000 nanoseconds. -/
theorem drawFrame_step_failures (s : VulkanSwapchainInfo) (r : VulkanRenderInfo)
    (env : DrawEnv) (h : drawReady s r env = true) :
    ∃ b t, VulkanDrawFrame s r env = some (b, t) ∧
      ((b = true) ↔ (env.acquire.isSome ∧ env.submitOk = true ∧ env.waitOk = true ∧
        env.presentOk = true)) ∧
      (b = false → ∃ m, DrawEvent.logWarn m ∈ t) ∧
      (∀ fl k, DrawEvent.waitForFences fl k ∈ t → k = 10 * 1000 * 1000 * 1000) ∧
      (env.acquire = none →
        (∀ ws cb f, DrawEvent.queueSubmit ws cb f ∉ t) ∧
        (∀ fl k, DrawEvent.waitForFences fl k ∉ t) ∧
        (∀ l i, DrawEvent.queuePresent l i ∉ t)) ∧
      (env.submitOk = false →
        (∀ fl k, DrawEvent.waitForFences fl k ∉ t) ∧
        (∀ l i, DrawEvent.queuePresent l i ∉ t)) ∧
      (env.waitOk = false → (∀ l i, DrawEvent.queuePresent l i ∉ t)) := by
  obtain ⟨sws, swl, ub, df, fb, dv, ds⟩ := s
  obtain ⟨cmds, sems, fens⟩ := r
  obtain ⟨acq, mc, sub, wa, pr⟩ := env
  cases sws with
  | nil => simp [drawReady] at h
  | cons sc stl =>
  cases sems with
  | nil => simp [drawReady] at h
  | cons sem smtl =>
  cases fens with
  | nil => simp [drawReady] at h
  | cons fen ftl =>
  cases acq with
  | none =>
    refine ⟨false, [.acquireNextImage sc sem, .logWarn "vk.AcquireNextImage failed"],
      ?_, ?_, ?_, ?_, ?_, ?_, ?_⟩
    · simp [VulkanDrawFrame, VulkanSwapchainInfo.DefaultSwapchain,
        VulkanRenderInfo.DefaultSemaphore]
    all_goals simp
  | some idx =>
    simp only [drawReady, List.isEmpty_cons, Bool.not_false, Bool.true_and,
      Bool.and_eq_true, decide_eq_true_eq, true_and] at h
    obtain ⟨hlt, hle⟩ := h
    obtain ⟨mem, hub⟩ : ∃ mem, ub[idx]? = some mem :=
      ⟨_, List.getElem?_eq_getElem hlt⟩
    cases sub with
    | false =>
      refine ⟨false,
        .acquireNextImage sc sem :: uploadTrace mem mc ++
          [.resetFences (fen :: ftl), .queueSubmit [sem] (cmds.drop idx) fen,
           .logWarn "vk.QueueSubmit failed"],
        ?_, ?_, ?_, ?_, ?_, ?_, ?_⟩
      · simp [VulkanDrawFrame, VulkanSwapchainInfo.DefaultSwapchain,
          VulkanRenderInfo.DefaultSemaphore, VulkanRenderInfo.DefaultFence, hub, hle]
      all_goals simp [mem_uploadTrace, timeoutNano]
    | true =>
      cases wa with
      | false =>
        refine ⟨false,
          (.acquireNextImage sc sem :: uploadTrace mem mc ++
            [.resetFences (fen :: ftl), .queueSubmit [sem] (cmds.drop idx) fen]) ++
          [.waitForFences (fen :: ftl) timeoutNano,
           .logWarn "vk.WaitForFences failed"],
          ?_, ?_, ?_, ?_, ?_, ?_, ?_⟩
        · simp [VulkanDrawFrame, VulkanSwapchainInfo.DefaultSwapchain,
            VulkanRenderInfo.DefaultSemaphore, VulkanRenderInfo.DefaultFence, hub, hle]
        all_goals simp [mem_uploadTrace, timeoutNano]
      | true =>
        cases pr with
        | false =>
          refine ⟨false,
            (.acquireNextImage sc sem :: uploadTrace mem mc ++
              [.resetFences (fen :: ftl), .queueSubmit [sem] (cmds.drop idx) fen]) ++
            [.waitForFences (fen :: ftl) timeoutNano,
             .queuePresent (sc :: stl) idx,
             .logWarn "vk.QueuePresent failed"],
            ?_, ?_, ?_, ?_, ?_, ?_, ?_⟩
          · simp [VulkanDrawFrame, VulkanSwapchainInfo.DefaultSwapchain,
              VulkanRenderInfo.DefaultSemaphore, VulkanRenderInfo.DefaultFence, hub, hle]
          all_goals simp [mem_uploadTrace, timeoutNano]
        | true =>
          refine ⟨true,
            (.acquireNextImage sc sem :: uploadTrace mem mc ++
              [.resetFences (fen :: ftl), .queueSubmit [sem] (cmds.drop idx) fen]) ++
            [.waitForFences (fen :: ftl) timeoutNano,
             .queuePresent (sc :: stl) idx],
            ?_, ?_, ?_, ?_, ?_, ?_, ?_⟩
          · simp [VulkanDrawFrame, VulkanSwapchainInfo.DefaultSwapchain,
              VulkanRenderInfo.DefaultSemaphore, VulkanRenderInfo.DefaultFence, hub, hle]
          all_goals simp [mem_uploadTrace, timeoutNano]

/-- C2 witness: a ready two-image state with every step succeeding. -/
theorem drawFrame_step_failures_witness :
    ∃ b t, VulkanDrawFrame sampleSwapchainInfo sampleRenderInfo sampleDrawEnv =
        some (b, t) ∧
      ((b = true) ↔ (sampleDrawEnv.acquire.isSome ∧ sampleDrawEnv.submitOk = true ∧
        sampleDrawEnv.waitOk = true ∧ sampleDrawEnv.presentOk = true)) ∧
      (b = false → ∃ m, DrawEvent.logWarn m ∈ t) ∧
      (∀ fl k, DrawEvent.waitForFences fl k ∈ t → k = 10 * 1000 * 1000 * 1000) ∧
      (sampleDrawEnv.acquire = none →
        (∀ ws cb f, DrawEvent.queueSubmit ws cb f ∉ t) ∧
        (∀ fl k, DrawEvent.waitForFences fl k ∉ t) ∧
        (∀ l i, DrawEvent.queuePresent l i ∉ t)) ∧
      (sampleDrawEnv.submitOk = false →
        (∀ fl k, DrawEvent.waitForFences fl k ∉ t) ∧
        (∀ l i, DrawEvent.queuePresent l i ∉ t)) ∧
      (sampleDrawEnv.waitOk = false → (∀ l i, DrawEvent.queuePresent l i ∉ t)) :=
  drawFrame_step_failures sampleSwapchainInfo sampleRenderInfo sampleDrawEnv (by decide)

/-- C1: in every execution of VulkanDrawFrame whose trace reaches the queue
submission, the fence reset precedes the submission, the submission waits on
the acquire semaphore as its sole wait semaphore, and any presentation in
the trace comes only after the fence wait has returned successfully. -/
theorem drawFrame_sync_ordering (s : VulkanSwapchainInfo) (r : VulkanRenderInfo)
    (env : DrawEnv) (b : Bool) (t : List DrawEvent) (ws cb : List Handle) (f : Handle)
    (h : VulkanDrawFrame s r env = some (b, t))
    (hsub : DrawEvent.queueSubmit ws cb f ∈ t) :
    (∃ sc sem, r.DefaultSemaphore = some sem ∧
      DrawEvent.acquireNextImage sc sem ∈ t ∧ ws = [sem]) ∧
    precedes (.resetFences r.fences) (.queueSubmit ws cb f) t ∧
    (∀ l i, DrawEvent.queuePresent l i ∈ t →
      env.waitOk = true ∧
      precedes (.waitForFences r.fences timeoutNano) (.queuePresent l i) t) := by
  obtain ⟨sws, swl, ub, df, fb, dv, ds⟩ := s
  obtain ⟨cmds, sems, fens⟩ := r
  obtain ⟨acq, mc, sub, wa, pr⟩ := env
  cases sws with
  | nil => simp [VulkanDrawFrame, VulkanSwapchainInfo.DefaultSwapchain] at h
  | cons sc stl =>
  cases sems with
  | nil =>
    simp [VulkanDrawFrame, VulkanSwapchainInfo.DefaultSwapchain,
      VulkanRenderInfo.DefaultSemaphore] at h
  | cons sem smtl =>
  cases acq with
  | none =>
    simp only [VulkanDrawFrame, VulkanSwapchainInfo.DefaultSwapchain,
      VulkanRenderInfo.DefaultSemaphore, List.getElem?_cons_zero,
      Option.some.injEq, Prod.mk.injEq] at h
    obtain ⟨hb, ht⟩ := h
    subst ht
    simp at hsub
  | some idx =>
    cases hub : ub[idx]? with
    | none =>
      simp [VulkanDrawFrame, VulkanSwapchainInfo.DefaultSwapchain,
        VulkanRenderInfo.DefaultSemaphore, hub] at h
    | some mem =>
    by_cases hle : idx ≤ cmds.length
    case neg =>
      simp [VulkanDrawFrame, VulkanSwapchainInfo.DefaultSwapchain,
        VulkanRenderInfo.DefaultSemaphore, hub, hle] at h
    case pos =>
    cases fens with
    | nil =>
      simp [VulkanDrawFrame, VulkanSwapchainInfo.DefaultSwapchain,
        VulkanRenderInfo.DefaultSemaphore, VulkanRenderInfo.DefaultFence,
        hub, hle] at h
    | cons fen ftl =>
    cases sub with
    | false =>
      simp only [VulkanDrawFrame, VulkanSwapchainInfo.DefaultSwapchain,
        VulkanRenderInfo.DefaultSemaphore, VulkanRenderInfo.DefaultFence,
        List.getElem?_cons_zero, hub, hle, if_true, if_false, Bool.false_eq_true,
        List.take_succ_cons, List.take_zero, Option.some.injEq, Prod.mk.injEq] at h
      obtain ⟨hb, ht⟩ := h
      subst ht
      simp [mem_uploadTrace] at hsub
      obtain ⟨hws, hcb, hf⟩ := hsub
      subst ws cb f
      refine ⟨⟨sc, sem, by simp [VulkanRenderInfo.DefaultSemaphore], by simp, rfl⟩, ?_, ?_⟩
      · exact ⟨.acquireNextImage sc sem :: uploadTrace mem mc, [],
          [.logWarn "vk.QueueSubmit failed"], by simp [precedes]⟩
      · intro l i hp
        simp [mem_uploadTrace] at hp
    | true =>
      cases wa with
      | false =>
        simp only [VulkanDrawFrame, VulkanSwapchainInfo.DefaultSwapchain,
          VulkanRenderInfo.DefaultSemaphore, VulkanRenderInfo.DefaultFence,
          List.getElem?_cons_zero, hub, hle, if_true, if_false, Bool.false_eq_true,
          List.take_succ_cons, List.take_zero, Option.some.injEq, Prod.mk.injEq] at h
        obtain ⟨hb, ht⟩ := h
        subst ht
        simp [mem_uploadTrace] at hsub
        obtain ⟨hws, hcb, hf⟩ := hsub
        subst ws cb f
        refine ⟨⟨sc, sem, by simp [VulkanRenderInfo.DefaultSemaphore], by simp, rfl⟩, ?_, ?_⟩
        · exact ⟨.acquireNextImage sc sem :: uploadTrace mem mc, [],
            [.waitForFences (fen :: ftl) timeoutNano,
             .logWarn "vk.WaitForFences failed"], by simp [precedes]⟩
        · intro l i hp
          simp [mem_uploadTrace] at hp
      | true =>
        cases pr with
        | false =>
          simp only [VulkanDrawFrame, VulkanSwapchainInfo.DefaultSwapchain,
            VulkanRenderInfo.DefaultSemaphore, VulkanRenderInfo.DefaultFence,
            List.getElem?_cons_zero, hub, hle, if_true, if_false, Bool.false_eq_true,
            List.take_succ_cons, List.take_zero, Option.some.injEq, Prod.mk.injEq] at h
          obtain ⟨hb, ht⟩ := h
          subst ht
          simp [mem_uploadTrace] at hsub
          obtain ⟨hws, hcb, hf⟩ := hsub
          subst ws cb f
          refine ⟨⟨sc, sem, by simp [VulkanRenderInfo.DefaultSemaphore], by simp, rfl⟩,
            ?_, ?_⟩
          · exact ⟨.acquireNextImage sc sem :: uploadTrace mem mc, [],
              [.waitForFences (fen :: ftl) timeoutNano,
               .queuePresent (sc :: stl) idx,
               .logWarn "vk.QueuePresent failed"], by simp [precedes]⟩
          · intro l i hp
            simp [mem_uploadTrace] at hp
            obtain ⟨hl, hi⟩ := hp
            subst l i
            refine ⟨rfl, ?_⟩
            exact ⟨.acquireNextImage sc sem :: uploadTrace mem mc ++
                [.resetFences (fen :: ftl),
                 .queueSubmit [sem] (cmds.drop idx) fen], [],
              [.logWarn "vk.QueuePresent failed"], by simp [precedes]⟩
        | true =>
          simp only [VulkanDrawFrame, VulkanSwapchainInfo.DefaultSwapchain,
            VulkanRenderInfo.DefaultSemaphore, VulkanRenderInfo.DefaultFence,
            List.getElem?_cons_zero, hub, hle, if_true, if_false, Bool.false_eq_true,
            List.take_succ_cons, List.take_zero, Option.some.injEq, Prod.mk.injEq] at h
          obtain ⟨hb, ht⟩ := h
          subst ht
          simp [mem_uploadTrace] at hsub
          obtain ⟨hws, hcb, hf⟩ := hsub
          subst ws cb f
          refine ⟨⟨sc, sem, by simp [VulkanRenderInfo.DefaultSemaphore], by simp, rfl⟩,
            ?_, ?_⟩
          · exact ⟨.acquireNextImage sc sem :: uploadTrace mem mc, [],
              [.waitForFences (fen :: ftl) timeoutNano,
               .queuePresent (sc :: stl) idx], by simp [precedes]⟩
          · intro l i hp
            simp [mem_uploadTrace] at hp
            obtain ⟨hl, hi⟩ := hp
            subst l i
            refine ⟨rfl, ?_⟩
            exact ⟨.acquireNextImage sc sem :: uploadTrace mem mc ++
                [.resetFences (fen :: ftl),
                 .queueSubmit [sem] (cmds.drop idx) fen], [], [],
              by simp [precedes]⟩

/-- C1 witness: the fully-succeeding sample frame, whose submission waits on
semaphore 71 and presents image 1 after the fence wait. -/
theorem drawFrame_sync_ordering_witness :
    (∃ sc sem, sampleRenderInfo.DefaultSemaphore = some sem ∧
      DrawEvent.acquireNextImage sc sem ∈ sampleDrawTrace ∧
      ([71] : List Handle) = [sem]) ∧
    precedes (.resetFences sampleRenderInfo.fences)
      (.queueSubmit [71] [62] 81) sampleDrawTrace ∧
    (∀ l i, DrawEvent.queuePresent l i ∈ sampleDrawTrace →
      sampleDrawEnv.waitOk = true ∧
      precedes (.waitForFences sampleRenderInfo.fences timeoutNano)
        (.queuePresent l i) sampleDrawTrace) :=
  drawFrame_sync_ordering sampleSwapchainInfo sampleRenderInfo sampleDrawEnv true
    sampleDrawTrace [71] [62] 81 (by decide) (by decide)

end VkGltf
